import Mathlib

/-!
Verification of the "Priyansh Dryfruits & Spices" backend
(`src/main.py`, `src/schemas.py`).

Modelling conventions:
* Python `float` values are modelled as exact rationals (`ℚ`): every price
  in the program is a short decimal literal, and the spec reasons in exact
  decimal arithmetic.
* Python's built-in `round(x, 2)` rounds half to even; `round2` below
  implements that on `ℚ`.
* The pydantic `Field(..., ge=b)` constraints are modelled by explicit
  `validate` functions returning `Except (List ValidationError) α`,
  collecting the failing fields in declaration order.
* The persistence layer (`database.py`: `db`, `create_document`,
  `get_documents`) is not part of the sources; those operations are
  modelled from the spec, as noted on each definition.  The database
  handle `db` is an `Option DBState`: `none` is the null sentinel of an
  unavailable gateway.
-/

deriving instance DecidableEq for Except

namespace Dryfruits

/-- A pydantic field constraint, as it appears in a validation error.
`ge q` is the minimum-bound constraint `Field(..., ge=q)`. -/
inductive Constraint where
  | ge (bound : ℚ)
  deriving Repr, DecidableEq

/-- A pydantic validation error: the offending field and the violated
constraint. -/
structure ValidationError where
  fieldName : String
  constraint : Constraint
  deriving Repr, DecidableEq

/-- `schemas.py` `Product`: a sellable item. -/
structure Product where
  title : String
  description : Option String
  price : ℚ
  category : String
  image_url : Option String
  in_stock : Bool
  deriving Repr, DecidableEq

/-- Pydantic construction `Product(**fields)`: the only numeric bound on
`Product` is `price: float = Field(..., ge=0)`. -/
def Product.validate (title : String) (description : Option String)
    (price : ℚ) (category : String) (image_url : Option String)
    (in_stock : Bool) : Except (List ValidationError) Product :=
  let errs : List ValidationError :=
    if price < 0 then [⟨"price", .ge 0⟩] else []
  if errs.isEmpty then
    .ok ⟨title, description, price, category, image_url, in_stock⟩
  else
    .error errs

/-- `schemas.py` `OrderItem`: a snapshotted line item of an order. -/
structure OrderItem where
  product_id : String
  title : String
  quantity : ℤ
  price : ℚ
  deriving Repr, DecidableEq

/-- Pydantic construction of `OrderItem`: `quantity: int = Field(..., ge=1)`
and `price: float = Field(..., ge=0)`. -/
def OrderItem.validate (product_id : String) (title : String)
    (quantity : ℤ) (price : ℚ) : Except (List ValidationError) OrderItem :=
  let errs : List ValidationError :=
    (if quantity < 1 then [⟨"quantity", .ge 1⟩] else []) ++
    (if price < 0 then [⟨"price", .ge 0⟩] else [])
  if errs.isEmpty then
    .ok ⟨product_id, title, quantity, price⟩
  else
    .error errs

/-- An `OrderItem` value that passes its own pydantic validation. -/
def OrderItem.Valid (i : OrderItem) : Prop :=
  OrderItem.validate i.product_id i.title i.quantity i.price = .ok i

instance (i : OrderItem) : Decidable i.Valid := by
  unfold OrderItem.Valid; infer_instance

/-- `schemas.py` `Order`: a completed checkout transaction. -/
structure Order where
  customer_name : String
  customer_email : String
  customer_phone : Option String
  shipping_address : String
  items : List OrderItem
  subtotal : ℚ
  tax : ℚ
  total : ℚ
  deriving Repr, DecidableEq

/-- Pydantic construction of `Order`: `subtotal`, `tax` and `total` each
carry `ge=0`.  `items` holds already-constructed `OrderItem` instances and
is not re-validated (pydantic keeps model instances as given). -/
def Order.validate (customer_name customer_email : String)
    (customer_phone : Option String) (shipping_address : String)
    (items : List OrderItem) (subtotal tax total : ℚ) :
    Except (List ValidationError) Order :=
  let errs : List ValidationError :=
    (if subtotal < 0 then [⟨"subtotal", .ge 0⟩] else []) ++
    (if tax < 0 then [⟨"tax", .ge 0⟩] else []) ++
    (if total < 0 then [⟨"total", .ge 0⟩] else [])
  if errs.isEmpty then
    .ok ⟨customer_name, customer_email, customer_phone, shipping_address,
         items, subtotal, tax, total⟩
  else
    .error errs

/-- Python's `round` to an integer: round half to even (banker's
rounding), as CPython implements it. -/
def pyRound (q : ℚ) : ℤ :=
  if q - ⌊q⌋ < 1/2 then ⌊q⌋
  else if 1/2 < q - ⌊q⌋ then ⌊q⌋ + 1
  else if ⌊q⌋ % 2 = 0 then ⌊q⌋ else ⌊q⌋ + 1

/-- Python's `round(x, 2)`: round to two decimal places, half to even. -/
def round2 (q : ℚ) : ℚ :=
  (pyRound (q * 100) : ℚ) / 100

/-- The checkout calculator (spec §4.2; `main.py` lines 119–121):
subtotal, 5% tax rounded to 2 decimals, rounded total. -/
def computeTotals (items : List OrderItem) : ℚ × ℚ × ℚ :=
  let subtotal := (items.map fun i => i.price * (i.quantity : ℚ)).sum
  let tax := round2 (subtotal * 0.05)
  let total := round2 (subtotal + tax)
  (subtotal, tax, total)

/-- Modelled from the spec: the document database behind the persistence
gateway, restricted to the two collections this system writes
(`product` and `order`). -/
structure DBState where
  products : List Product
  orders : List Order
  deriving Repr, DecidableEq

/-- Modelled from the spec: `createDocument("product", entity) ->
generated id`; the new document is appended to the collection and ids
are modelled as successive indices. -/
def create_document_product (s : DBState) (p : Product) : DBState × ℕ :=
  ({ s with products := s.products ++ [p] }, s.products.length)

/-- Modelled from the spec: `createDocument("order", entity) ->
generated id`; the new document is appended to the collection and ids
are modelled as successive indices. -/
def create_document_order (s : DBState) (o : Order) : DBState × ℕ :=
  ({ s with orders := s.orders ++ [o] }, s.orders.length)

/-- Modelled from the spec: `getDocuments("product", filter)`.  The only
filter this system builds is `{}` (no filter, modelled `none`) or
`{"category": c}` (modelled `some c`), matched by exact string equality. -/
def get_documents_product (s : DBState) (filter_q : Option String) :
    List Product :=
  match filter_q with
  | none => s.products
  | some c => s.products.filter fun p => p.category == c

/-- An HTTP error response (`fastapi.HTTPException`). -/
structure HTTPError where
  status_code : ℕ
  detail : String
  deriving Repr, DecidableEq

/-- An error escaping an endpoint: an explicit `HTTPException`, or a
pydantic validation failure while constructing an entity. -/
inductive ApiError where
  | http (e : HTTPError)
  | validation (errs : List ValidationError)
  deriving Repr, DecidableEq

/-- Response of `POST /seed`: `{"status": "ok", "message": ...}` when the
catalog is already present, `{"status": "ok", "inserted": n}` after an
insertion. -/
structure SeedResponse where
  status : String
  message : Option String
  inserted : Option ℕ
  deriving Repr, DecidableEq

/-- The fixed eleven-product catalog of `seed_products`
(`main.py` lines 75–87), each already through `Product(**p)`. -/
def seedCatalog : List Product :=
  [⟨"Premium Almonds", some "Handpicked Californian almonds.", 699,
    "dryfruits", some "/images/almonds.jpg", true⟩,
   ⟨"Whole Cashews", some "Crisp and buttery cashews.", 749,
    "dryfruits", some "/images/cashews.jpg", true⟩,
   ⟨"Pistachios", some "Roasted and lightly salted.", 899,
    "dryfruits", some "/images/pistachios.jpg", true⟩,
   ⟨"Walnuts", some "Omega-3 rich walnut kernels.", 799,
    "dryfruits", some "/images/walnuts.jpg", true⟩,
   ⟨"Raisins", some "Golden seedless raisins.", 299,
    "dryfruits", some "/images/raisins.jpg", true⟩,
   ⟨"Cardamom (Elaichi)", some "Aromatic whole green cardamom.", 459,
    "spices", some "/images/cardamom.jpg", true⟩,
   ⟨"Black Pepper", some "Bold Malabar black pepper.", 349,
    "spices", some "/images/blackpepper.jpg", true⟩,
   ⟨"Turmeric Powder", some "Pure Lakadong turmeric.", 199,
    "spices", some "/images/turmeric.jpg", true⟩,
   ⟨"Red Chilli Powder", some "Vibrant Byadgi chilli powder.", 229,
    "spices", some "/images/redchilli.jpg", true⟩,
   ⟨"Spice Gift Box", some "Curated spice box for gifting.", 1299,
    "gifting", some "/images/spicebox.jpg", true⟩,
   ⟨"Dry Fruits Combo", some "Assorted premium dry fruits.", 1499,
    "combos", some "/images/combobox.jpg", true⟩]

/-- `POST /seed` (`main.py` `seed_products`): error 500 when the database
handle is the null sentinel; a no-op when the product collection already
holds documents; otherwise inserts the fixed catalog one document at a
time and reports the count. -/
def seed_products (db : Option DBState) :
    Except ApiError (DBState × SeedResponse) :=
  match db with
  | none => .error (.http ⟨500, "Database not configured"⟩)
  | some s =>
    let existing := s.products.length
    if existing > 0 then
      .ok (s, ⟨"ok", some "Products already seeded", none⟩)
    else
      let s' := seedCatalog.foldl (fun t p => (create_document_product t p).1) s
      .ok (s', ⟨"ok", none, some seedCatalog.length⟩)

/-- `GET /products` (`main.py` `list_products`): error 500 when the
database handle is the null sentinel; otherwise builds
`filter_q = {"category": category} if category else {}` — Python
truthiness, so `None` and `""` both give the empty filter — and returns
the matching documents (the internal id never enters the model). -/
def list_products (db : Option DBState) (category : Option String) :
    Except ApiError (List Product) :=
  match db with
  | none => .error (.http ⟨500, "Database not configured"⟩)
  | some s =>
    let filter_q : Option String :=
      match category with
      | some c => if c = "" then none else some c
      | none => none
    .ok (get_documents_product s filter_q)

/-- Request body of `POST /checkout` (`main.py` `CheckoutRequest`). -/
structure CheckoutRequest where
  customer_name : String
  customer_email : String
  shipping_address : String
  items : List OrderItem
  deriving Repr, DecidableEq

/-- Response of `POST /checkout`:
`{"status": "success", "order_id": ..., "total": ...}`. -/
structure CheckoutResponse where
  status : String
  order_id : ℕ
  total : ℚ
  deriving Repr, DecidableEq

/-- `POST /checkout` (`main.py` `checkout`): error 500 when the database
handle is the null sentinel; otherwise computes the totals, constructs an
`Order` through pydantic validation, persists it, and returns the
generated id and the total. -/
def checkout (db : Option DBState) (payload : CheckoutRequest) :
    Except ApiError (DBState × CheckoutResponse) :=
  match db with
  | none => .error (.http ⟨500, "Database not configured"⟩)
  | some s =>
    let subtotal := (payload.items.map fun i => i.price * (i.quantity : ℚ)).sum
    let tax := round2 (subtotal * 0.05)
    let total := round2 (subtotal + tax)
    match Order.validate payload.customer_name payload.customer_email
        none payload.shipping_address payload.items subtotal tax total with
    | .error errs => .error (.validation errs)
    | .ok order =>
      let out := create_document_order s order
      .ok (out.1, ⟨"success", out.2, total⟩)

/-! ### Helper lemmas -/

/-- Rounding half to even sends a nonnegative rational to a nonnegative
integer. -/
theorem pyRound_nonneg {q : ℚ} (h : 0 ≤ q) : 0 ≤ pyRound q := by
  have hf : (0 : ℤ) ≤ ⌊q⌋ := Int.floor_nonneg.mpr h
  unfold pyRound
  split
  · exact hf
  · split
    · omega
    · split <;> omega

/-- `round2` sends a nonnegative rational to a nonnegative rational. -/
theorem round2_nonneg {q : ℚ} (h : 0 ≤ q) : 0 ≤ round2 q := by
  unfold round2
  have : (0 : ℚ) ≤ (pyRound (q * 100) : ℚ) := by
    exact_mod_cast pyRound_nonneg (by positivity)
  positivity

/-- A successful `Order.validate` returns exactly the record built from
its arguments. -/
theorem Order.validate_ok {cn ce : String} {cp : Option String}
    {sa : String} {its : List OrderItem} {st tx tt : ℚ} {o : Order}
    (h : Order.validate cn ce cp sa its st tx tt = .ok o) :
    o = ⟨cn, ce, cp, sa, its, st, tx, tt⟩ := by
  simp only [Order.validate] at h
  split_ifs at h <;> exact (Except.ok.inj h).symm

/-- `Order.validate` succeeds whenever the three monetary fields are
nonnegative. -/
theorem Order.validate_ok_of_nonneg {cn ce : String} {cp : Option String}
    {sa : String} {its : List OrderItem} {st tx tt : ℚ}
    (hst : 0 ≤ st) (htx : 0 ≤ tx) (htt : 0 ≤ tt) :
    Order.validate cn ce cp sa its st tx tt =
      .ok ⟨cn, ce, cp, sa, its, st, tx, tt⟩ := by
  unfold Order.validate
  simp [not_lt.mpr hst, not_lt.mpr htx, not_lt.mpr htt]

/-- Characterization of a successful checkout: the new state appends the
constructed order, and the response carries the generated id and total. -/
theorem checkout_ok_spec {s : DBState} {payload : CheckoutRequest}
    {s' : DBState} {resp : CheckoutResponse}
    (h : checkout (some s) payload = .ok (s', resp)) :
    s' = ⟨s.products, s.orders ++
            [⟨payload.customer_name, payload.customer_email, none,
              payload.shipping_address, payload.items,
              (payload.items.map fun i => i.price * (i.quantity : ℚ)).sum,
              round2 ((payload.items.map fun i =>
                i.price * (i.quantity : ℚ)).sum * 0.05),
              round2 ((payload.items.map fun i =>
                  i.price * (i.quantity : ℚ)).sum +
                round2 ((payload.items.map fun i =>
                  i.price * (i.quantity : ℚ)).sum * 0.05))⟩]⟩ ∧
    resp = ⟨"success", s.orders.length,
            round2 ((payload.items.map fun i =>
                i.price * (i.quantity : ℚ)).sum +
              round2 ((payload.items.map fun i =>
                i.price * (i.quantity : ℚ)).sum * 0.05))⟩ := by
  simp only [checkout] at h
  split at h
  · exact Except.noConfusion h
  · rename_i order ho
    have hord := Order.validate_ok ho
    subst hord
    have hp := Except.ok.inj h
    exact ⟨(congrArg Prod.fst hp).symm, (congrArg Prod.snd hp).symm⟩

/-- Folding document creation over a product list appends it to the
collection. -/
theorem foldl_create_document_product (s : DBState) (ps : List Product) :
    ps.foldl (fun t p => (create_document_product t p).1) s =
      ⟨s.products ++ ps, s.orders⟩ := by
  induction ps generalizing s with
  | nil => simp
  | cons p ps ih =>
    rw [List.foldl_cons, ih]
    simp [create_document_product]

/-- An `OrderItem` passing its validation has quantity ≥ 1 and
price ≥ 0. -/
theorem OrderItem.valid_bounds {i : OrderItem} (h : i.Valid) :
    1 ≤ i.quantity ∧ 0 ≤ i.price := by
  unfold OrderItem.Valid OrderItem.validate at h
  by_cases h1 : i.quantity < 1
  · exfalso
    by_cases h2 : i.price < 0 <;> simp [h1, h2] at h
  · by_cases h2 : i.price < 0
    · exfalso; simp [h1, h2] at h
    · exact ⟨not_lt.mp h1, not_lt.mp h2⟩

/-! ### Claim theorems -/

/-- C1: for every list of order items the checkout computation yields
subtotal = Σ price·quantity, tax = round(subtotal·0.05, 2) and
total = round(subtotal + tax, 2); in particular on items
[(price 699, qty 2), (price 299, qty 1)] it yields subtotal 1697,
tax 84.85 and total 1781.85. -/
theorem computeTotals_spec (items : List OrderItem) :
    (computeTotals items).1 =
      (items.map fun i => i.price * (i.quantity : ℚ)).sum ∧
    (computeTotals items).2.1 = round2 ((computeTotals items).1 * 0.05) ∧
    (computeTotals items).2.2 =
      round2 ((computeTotals items).1 + (computeTotals items).2.1) ∧
    computeTotals
        [⟨"1", "Premium Almonds", 2, 699⟩, ⟨"5", "Raisins", 1, 299⟩] =
      (1697, 84.85, 1781.85) := by
  refine ⟨rfl, rfl, rfl, ?_⟩
  norm_num [computeTotals, round2, pyRound]

/-- C5: a checkout request with an empty items list is accepted and
produces an order with subtotal 0, tax 0 and total 0, returned total 0. -/
theorem checkout_empty_items (s : DBState) (cn ce sa : String) :
    checkout (some s) ⟨cn, ce, sa, []⟩ =
      .ok (⟨s.products, s.orders ++ [⟨cn, ce, none, sa, [], 0, 0, 0⟩]⟩,
           ⟨"success", s.orders.length, 0⟩) := by
  have h0 : round2 0 = 0 := by norm_num [round2, pyRound]
  simp [checkout, Order.validate, create_document_order, h0]

/-- C7: when the database handle is the null sentinel, the seed,
product-listing and checkout operations each fail with the
internal-server configuration error, before any read or write, and no
state is produced or changed. -/
theorem db_unavailable_config_error (c : Option String)
    (payload : CheckoutRequest) :
    seed_products none = .error (.http ⟨500, "Database not configured"⟩) ∧
    list_products none c = .error (.http ⟨500, "Database not configured"⟩) ∧
    checkout none payload = .error (.http ⟨500, "Database not configured"⟩) :=
  ⟨rfl, rfl, rfl⟩

/-- C9: an empty-string category argument is falsy in Python, so
`list_products` applies no filter and returns every stored product. -/
theorem list_products_empty_string_no_filter (s : DBState) :
    list_products (some s) (some "") = .ok s.products := rfl

/-- C2 counterexample: for the valid payload with one item of price
0.001 and quantity 1, the stored order has subtotal 0.001, tax 0 and
total 0, and 0 ≠ 0.001 + 0: the stored total is not exactly
subtotal + tax. -/
theorem checkout_total_not_exact_sum_cex :
    checkout (some ⟨[], []⟩) ⟨"A", "a@example.com", "Addr",
        [⟨"9", "Tiny Sample", 1, 1/1000⟩]⟩ =
      .ok (⟨[], [⟨"A", "a@example.com", none, "Addr",
              [⟨"9", "Tiny Sample", 1, 1/1000⟩], 1/1000, 0, 0⟩]⟩,
           ⟨"success", 0, 0⟩) ∧
    ¬ ((0 : ℚ) = 1/1000 + 0) := by
  constructor
  · norm_num [checkout, Order.validate, create_document_order, round2, pyRound]
  · norm_num

/-- C2 (amended): every order stored by checkout satisfies
subtotal = Σ price·quantity over its items, tax = round(subtotal·0.05, 2)
and total = round(subtotal + tax, 2) — so total equals subtotal + tax
only up to the final rounding; the fields are fixed at creation. -/
theorem checkout_order_invariant (s : DBState) (payload : CheckoutRequest)
    (s' : DBState) (resp : CheckoutResponse)
    (h : checkout (some s) payload = .ok (s', resp)) :
    ∃ o : Order, s'.orders = s.orders ++ [o] ∧
      o.items = payload.items ∧
      o.subtotal = (o.items.map fun i => i.price * (i.quantity : ℚ)).sum ∧
      o.tax = round2 (o.subtotal * 0.05) ∧
      o.total = round2 (o.subtotal + o.tax) := by
  obtain ⟨h1, h2⟩ := checkout_ok_spec h
  subst h1
  exact ⟨_, rfl, rfl, rfl, rfl, rfl⟩

/-- C2 witness: the amended invariant instantiated on the spec's example
payload, whose stored order is (subtotal 1697, tax 84.85,
total 1781.85). -/
theorem checkout_order_invariant_witness :
    ∃ o : Order,
      (DBState.mk []
          [⟨"Asha", "asha@example.com", none, "12 Lane",
            [⟨"1", "Premium Almonds", 2, 699⟩, ⟨"5", "Raisins", 1, 299⟩],
            1697, 84.85, 1781.85⟩]).orders =
        ([] : List Order) ++ [o] ∧
      o.items = [⟨"1", "Premium Almonds", 2, 699⟩, ⟨"5", "Raisins", 1, 299⟩] ∧
      o.subtotal = (o.items.map fun i => i.price * (i.quantity : ℚ)).sum ∧
      o.tax = round2 (o.subtotal * 0.05) ∧
      o.total = round2 (o.subtotal + o.tax) :=
  checkout_order_invariant ⟨[], []⟩
    ⟨"Asha", "asha@example.com", "12 Lane",
      [⟨"1", "Premium Almonds", 2, 699⟩, ⟨"5", "Raisins", 1, 299⟩]⟩
    ⟨[], [⟨"Asha", "asha@example.com", none, "12 Lane",
        [⟨"1", "Premium Almonds", 2, 699⟩, ⟨"5", "Raisins", 1, 299⟩],
        1697, 84.85, 1781.85⟩]⟩
    ⟨"success", 0, 1781.85⟩
    (by norm_num [checkout, Order.validate, create_document_order,
      round2, pyRound])

/-- C3: seeding is idempotent by count — a non-empty product collection
makes it a no-op reporting nothing inserted; an empty one receives the
fixed eleven-product catalog (all in stock) with the count reported, and
a second call after seeding from empty changes nothing. -/
theorem seed_products_idempotent (s : DBState) :
    (s.products ≠ [] →
      seed_products (some s) =
        .ok (s, ⟨"ok", some "Products already seeded", none⟩)) ∧
    (s.products = [] →
      seed_products (some s) =
        .ok (⟨seedCatalog, s.orders⟩, ⟨"ok", none, some 11⟩)) ∧
    seedCatalog.length = 11 ∧
    (∀ p ∈ seedCatalog, p.in_stock = true) ∧
    (s.products = [] → ∀ s1 r1, seed_products (some s) = .ok (s1, r1) →
      seed_products (some s1) =
        .ok (s1, ⟨"ok", some "Products already seeded", none⟩)) := by
  obtain ⟨prods, ords⟩ := s
  have hfirst : ∀ t : DBState, t.products ≠ [] →
      seed_products (some t) =
        .ok (t, ⟨"ok", some "Products already seeded", none⟩) := by
    intro t ht
    simp only [seed_products]
    rw [if_pos (List.length_pos.mpr ht)]
  have hempty : seed_products (some ⟨[], ords⟩) =
      .ok (⟨seedCatalog, ords⟩, ⟨"ok", none, some 11⟩) := by
    have h11 : seedCatalog.length = 11 := rfl
    simp [seed_products, foldl_create_document_product, h11]
  refine ⟨hfirst _, ?_, rfl, by decide, ?_⟩
  · intro hE
    cases hE
    exact hempty
  · intro hE s1 r1 h1
    cases hE
    rw [hempty] at h1
    have hp := Except.ok.inj h1
    have hs1 : s1 = ⟨seedCatalog, ords⟩ := (congrArg Prod.fst hp).symm
    subst hs1
    exact hfirst _ (by simp [seedCatalog])

/-- C3 witness: seeding the empty database inserts the catalog and
reports 11; seeding again is a no-op reporting nothing inserted. -/
theorem seed_products_idempotent_witness :
    seed_products (some ⟨[], []⟩) =
      .ok (⟨seedCatalog, []⟩, ⟨"ok", none, some 11⟩) ∧
    seed_products (some ⟨seedCatalog, []⟩) =
      .ok (⟨seedCatalog, []⟩, ⟨"ok", some "Products already seeded", none⟩) := by
  refine ⟨(seed_products_idempotent ⟨[], []⟩).2.1 rfl, ?_⟩
  exact ((seed_products_idempotent ⟨[], []⟩).2.2.2.2 rfl
    ⟨seedCatalog, []⟩ ⟨"ok", none, some 11⟩
    ((seed_products_idempotent ⟨[], []⟩).2.1 rfl))

/-- C4 counterexample: with the empty-string category argument — a
legitimate string argument — a product whose category is "spices" (not
equal to "") is still returned, so filtering does not hold for every
category argument. -/
theorem list_products_category_cex :
    list_products
        (some ⟨[⟨"Black Pepper", none, 349, "spices", none, true⟩], []⟩)
        (some "") =
      .ok [⟨"Black Pepper", none, 349, "spices", none, true⟩] ∧
    ("spices" : String) ≠ "" := ⟨rfl, by decide⟩

/-- C4 (amended): for every nonempty category argument, `list_products`
returns exactly the stored products whose category equals the argument
(case-sensitive exact match), and with no category argument it returns
all products; the empty-string argument is treated as absent. -/
theorem list_products_filter (s : DBState) (c : String) (hc : c ≠ "") :
    list_products (some s) (some c) =
      .ok (s.products.filter fun p => p.category == c) ∧
    (∀ p : Product,
      p ∈ s.products.filter (fun p => p.category == c) ↔
        p ∈ s.products ∧ p.category = c) ∧
    list_products (some s) none = .ok s.products := by
  refine ⟨?_, ?_, rfl⟩
  · simp [list_products, get_documents_product, hc]
  · intro p
    simp [List.mem_filter]

/-- C4 witness: the amended filtering property instantiated on a
two-product store and the category "spices". -/
theorem list_products_filter_witness :
    list_products
        (some ⟨[⟨"Black Pepper", none, 349, "spices", none, true⟩,
                ⟨"Raisins", none, 299, "dryfruits", none, true⟩], []⟩)
        (some "spices") =
      .ok ([⟨"Black Pepper", none, 349, "spices", none, true⟩,
            ⟨"Raisins", none, 299, "dryfruits", none, true⟩].filter
        fun p => p.category == "spices") ∧
    (∀ p : Product,
      p ∈ [⟨"Black Pepper", none, 349, "spices", none, true⟩,
           ⟨"Raisins", none, 299, "dryfruits", none, true⟩].filter
            (fun p => p.category == "spices") ↔
        p ∈ [⟨"Black Pepper", none, 349, "spices", none, true⟩,
             ⟨"Raisins", none, 299, "dryfruits", none, true⟩] ∧
        p.category = "spices") ∧
    list_products
        (some ⟨[⟨"Black Pepper", none, 349, "spices", none, true⟩,
                ⟨"Raisins", none, 299, "dryfruits", none, true⟩], []⟩)
        none =
      .ok [⟨"Black Pepper", none, 349, "spices", none, true⟩,
           ⟨"Raisins", none, 299, "dryfruits", none, true⟩] :=
  list_products_filter
    ⟨[⟨"Black Pepper", none, 349, "spices", none, true⟩,
      ⟨"Raisins", none, 299, "dryfruits", none, true⟩], []⟩
    "spices" (by decide)

/-- C6: a successful checkout persists exactly the payload's items, in
their order, with title and price untouched, copies the payload's
customer fields into the order, and responds with the generated order id
and the computed total. -/
theorem checkout_persists_payload (s : DBState) (payload : CheckoutRequest)
    (s' : DBState) (resp : CheckoutResponse)
    (h : checkout (some s) payload = .ok (s', resp)) :
    ∃ o : Order,
      s'.orders = s.orders ++ [o] ∧
      s'.products = s.products ∧
      o.items = payload.items ∧
      o.customer_name = payload.customer_name ∧
      o.customer_email = payload.customer_email ∧
      o.shipping_address = payload.shipping_address ∧
      resp.status = "success" ∧
      resp.order_id = s.orders.length ∧
      resp.total = o.total := by
  obtain ⟨h1, h2⟩ := checkout_ok_spec h
  subst h1
  subst h2
  exact ⟨_, rfl, rfl, rfl, rfl, rfl, rfl, rfl, rfl, rfl⟩

/-- C6 witness: the persistence property instantiated on a one-item
payload (price 749, quantity 1; total 786.45). -/
theorem checkout_persists_payload_witness :
    ∃ o : Order,
      (DBState.mk []
          [⟨"Ravi", "ravi@example.com", none, "7 Market Road",
            [⟨"2", "Whole Cashews", 1, 749⟩], 749, 37.45, 786.45⟩]).orders =
        ([] : List Order) ++ [o] ∧
      (DBState.mk []
          [⟨"Ravi", "ravi@example.com", none, "7 Market Road",
            [⟨"2", "Whole Cashews", 1, 749⟩], 749, 37.45, 786.45⟩]).products =
        ([] : List Product) ∧
      o.items = [⟨"2", "Whole Cashews", 1, 749⟩] ∧
      o.customer_name = "Ravi" ∧
      o.customer_email = "ravi@example.com" ∧
      o.shipping_address = "7 Market Road" ∧
      (CheckoutResponse.mk "success" 0 786.45).status = "success" ∧
      (CheckoutResponse.mk "success" 0 786.45).order_id = ([] : List Order).length ∧
      (CheckoutResponse.mk "success" 0 786.45).total = o.total :=
  checkout_persists_payload ⟨[], []⟩
    ⟨"Ravi", "ravi@example.com", "7 Market Road",
      [⟨"2", "Whole Cashews", 1, 749⟩]⟩
    ⟨[], [⟨"Ravi", "ravi@example.com", none, "7 Market Road",
        [⟨"2", "Whole Cashews", 1, 749⟩], 749, 37.45, 786.45⟩]⟩
    ⟨"success", 0, 786.45⟩
    (by norm_num [checkout, Order.validate, create_document_order,
      round2, pyRound])

/-- C8: constructing a Product with any price below the minimum bound 0 —
in particular price = −1 — fails with a validation error identifying the
price field and its ge-0 constraint. -/
theorem product_negative_price_rejected (t : String) (d : Option String)
    (price : ℚ) (c : String) (iu : Option String) (stk : Bool)
    (hp : price < 0) :
    Product.validate t d price c iu stk = .error [⟨"price", .ge 0⟩] ∧
    Product.validate t d (-1) c iu stk = .error [⟨"price", .ge 0⟩] := by
  constructor
  · simp [Product.validate, hp]
  · norm_num [Product.validate]

/-- C8 witness: the rejection instantiated at price = −1. -/
theorem product_negative_price_rejected_witness :
    Product.validate "Premium Almonds" none (-1) "dryfruits" none true =
      .error [⟨"price", .ge 0⟩] ∧
    Product.validate "Premium Almonds" none (-1) "dryfruits" none true =
      .error [⟨"price", .ge 0⟩] :=
  product_negative_price_rejected "Premium Almonds" none (-1) "dryfruits"
    none true (by norm_num)

/-- C10: when every payload item passes OrderItem validation
(quantity ≥ 1, price ≥ 0), the subtotal, tax and total are nonnegative,
so the Order constructor's ge-0 checks cannot fire: checkout succeeds. -/
theorem checkout_validation_unreachable (s : DBState)
    (payload : CheckoutRequest)
    (hv : ∀ i ∈ payload.items, i.Valid) :
    (checkout (some s) payload).isOk = true := by
  have hst : 0 ≤ (payload.items.map fun i => i.price * (i.quantity : ℚ)).sum := by
    apply List.sum_nonneg
    intro x hx
    simp only [List.mem_map] at hx
    obtain ⟨i, hi, rfl⟩ := hx
    obtain ⟨hq, hp⟩ := OrderItem.valid_bounds (hv i hi)
    have hq0 : (0 : ℚ) ≤ (i.quantity : ℚ) := by
      have h1 : (0 : ℤ) ≤ i.quantity := le_trans zero_le_one hq
      exact_mod_cast h1
    exact mul_nonneg hp hq0
  have htx : 0 ≤ round2
      ((payload.items.map fun i => i.price * (i.quantity : ℚ)).sum * 0.05) :=
    round2_nonneg (mul_nonneg hst (by norm_num))
  have htt : 0 ≤ round2
      ((payload.items.map fun i => i.price * (i.quantity : ℚ)).sum +
        round2 ((payload.items.map fun i =>
          i.price * (i.quantity : ℚ)).sum * 0.05)) :=
    round2_nonneg (add_nonneg hst htx)
  simp only [checkout]
  rw [Order.validate_ok_of_nonneg hst htx htt]
  rfl

/-- C10 witness: checkout succeeds on a payload whose single item passes
OrderItem validation. -/
theorem checkout_validation_unreachable_witness :
    (checkout (some ⟨[], []⟩)
      ⟨"Asha", "asha@example.com", "12 Lane",
        [⟨"3", "Pistachios", 2, 899⟩]⟩).isOk = true := by
  apply checkout_validation_unreachable
  intro i hi
  simp only [List.mem_singleton] at hi
  subst hi
  simp [OrderItem.Valid, OrderItem.validate]

end Dryfruits
